import Mathlib

/-!
Shallow embedding of the EIVA front-end application (a TypeScript/React
client over a hosted backend and a generative-AI API) and verification of
its natural-language specification.

Sources embedded here:
  - `src/services/geminiService.ts` : `generateAIAnswer`, `decodeAudioData`
  - `src/services/agentConfig.ts`   : the `AGENTS` lookup table
  - `src/components/AIChat.tsx`     : `handleSend`
  - `src/components/Browser.tsx`    : the `AskQuestion` form (`handleSubmit`)
  - `src/App.tsx`                   : `handleAskQuestion`
  - `src/services/storageService.ts` (`src/unnamed/part_011`) :
      `mapUser`, `listenToPosts`, `toggleVote`, `toggleFollow`, `createPost`
  - `src/services/postService.ts`   : `fetchPosts`

The generative-AI endpoint and the hosted database are external; they are
modelled as explicit parameters (an oracle function for the AI endpoint,
an explicit record of table rows for the database).  JavaScript falsiness
of strings (`s || d` yields `d` exactly when `s` is null, undefined or
empty) is modelled by `jsOrOpt` / `jsOrStr`.
-/

/-- JavaScript `v || d` for a nullable string `v`: the default is taken when
`v` is null/undefined (`none`) or the empty string (both are falsy). -/
def jsOrOpt (v : Option String) (d : String) : String :=
  match v with
  | some s => if s = "" then d else s
  | none => d

/-- JavaScript `s || d` for a plain string: the default is taken exactly when
`s` is empty. -/
def jsOrStr (s d : String) : String :=
  if s = "" then d else s

/-- JavaScript template interpolation of a nullable string: SQL NULL prints
as the text `null`. -/
def jsShow (v : Option String) : String :=
  match v with
  | some s => s
  | none => "null"

/-- JavaScript `String.prototype.trim`: strip leading and trailing
whitespace. -/
def jsTrim (s : String) : String :=
  ⟨((s.toList.dropWhile Char.isWhitespace).reverse.dropWhile Char.isWhitespace).reverse⟩

/-! ## `src/services/geminiService.ts` — the generative-AI wrapper -/

/-- An inline image part, as in `geminiService.ts` (`ImagePart`). -/
structure ImagePart where
  data : String
  mimeType : String
  deriving DecidableEq

/-- One element of a request `contents.parts` array. -/
inductive ContentPart where
  | image (p : ImagePart)
  | text (s : String)
  deriving DecidableEq

/-- A single `ai.models.generateContent` request as built by
`generateAIAnswer`: model name, parts, temperature and system instruction. -/
structure GenRequest where
  model : String
  parts : List ContentPart
  temperature : Option ℚ
  systemInstruction : Option String
  deriving DecidableEq

/-- Outcome of one request against the external endpoint: either a response
(whose `text` field may be absent) or a thrown error. -/
inductive GenOutcome where
  | success (text : Option String)
  | failure
  deriving DecidableEq

/-- The external generative-AI endpoint, modelled as an oracle from
requests to outcomes. -/
def Oracle : Type := GenRequest → GenOutcome

/-- The result shape returned by `generateAIAnswer` (`AIResponse`): in the
catch branch the `sources` field is left undefined, hence the `Option`. -/
structure AIResponse where
  text : String
  agentName : String
  sources : Option (List String)
  deriving DecidableEq

/-- The fixed system instruction hard-coded in `generateAIAnswer`. -/
def eivaSystemInstruction : String :=
  "You are EIVA, a helpful, intelligent assistant. Provide concise, accurate, and structured answers. You can analyze images if provided."

/-- The `contents` value: `[imagePart, text]` when an image is attached,
`[text]` otherwise. -/
def mkContents (prompt : String) (img : Option ImagePart) : List ContentPart :=
  match img with
  | some ip => [ContentPart.image ip, ContentPart.text prompt]
  | none => [ContentPart.text prompt]

/-- The one request `generateAIAnswer` builds for a prompt. -/
def generateAIAnswerRequest (prompt : String) (img : Option ImagePart) : GenRequest :=
  { model := "gemini-1.5-flash"
    parts := mkContents prompt img
    temperature := some (7 / 10)
    systemInstruction := some eivaSystemInstruction }

/-- `generateAIAnswer` (geminiService.ts lines 12-41): issues the single
request, returns the response text (with an in-band default when the text
field is falsy), and on a thrown error returns the fallback result instead
of propagating.  The second component is the list of requests issued to the
endpoint, in order. -/
def generateAIAnswer (o : Oracle) (prompt : String) (img : Option ImagePart) :
    AIResponse × List GenRequest :=
  let req := generateAIAnswerRequest prompt img
  match o req with
  | GenOutcome.success t =>
      ({ text := jsOrOpt t "I\x27m sorry, I couldn\x27t generate an answer for that.",
         agentName := "EIVA", sources := some [] }, [req])
  | GenOutcome.failure =>
      ({ text := "Transmission error. Please try again later.",
         agentName := "System Error", sources := none }, [req])

/-! ## `src/services/agentConfig.ts` — the `AGENTS` lookup table -/

/-- An agent preset (`Agent` in agentConfig.ts). -/
structure Agent where
  id : String
  name : String
  description : String
  instruction : String
  model : String
  supportsSearch : Bool
  deriving DecidableEq

/-- The static `AGENTS` record, keyed by its TypeScript property names. -/
def AGENTS : List (String × Agent) :=
  [ ("CODE_EXPLAINER",
     { id := "code_explainer_agent"
       name := "Code Explainer Agent"
       description := "Explains programming code and outputs for students"
       model := "gemini-1.5-flash"
       supportsSearch := true
       instruction := "You are the Code Explainer Agent of EIVA AI.\nYour task is to:\n- Explain programming code line by line\n- Predict the output of the code\n- Generate viva questions from the code\n- Simplify logic for college students\n\nSupported languages: C, C++, Python, Java\nAlways explain in simple, exam-oriented language." })
  , ("NOTES_GENERATOR",
     { id := "notes_generator_agent"
       name := "Notes Generator Agent"
       description := "Creates short exam-oriented notes for students"
       model := "gemini-1.5-flash"
       supportsSearch := true
       instruction := "You are the Notes Generator Agent of EIVA AI.\nYour task is to:\n- Generate short and clear exam notes\n- Use bullet points and headings\n- Focus on definitions, key points, and examples\n- Make notes easy for last-minute revision\n\nAlways write in simple, student-friendly language." })
  , ("VIVA_QUESTION",
     { id := "viva_question_agent"
       name := "Viva Question Agent"
       description := "Generates viva and oral exam questions with answers"
       model := "gemini-1.5-flash"
       supportsSearch := true
       instruction := "You are the Viva Question Agent of EIVA AI.\nYour task is to:\n- Generate viva and oral exam questions\n- Provide short and clear answers\n- Focus on commonly asked college viva questions\n- Use one-line or two-line answers where possible\n\nKeep explanations simple and exam-focused." })
  , ("STUDY_PLANNER",
     { id := "study_planner_agent"
       name := "Study Planner Agent"
       description := "Creates exam timetables and daily study plans"
       model := "gemini-1.5-flash"
       supportsSearch := true
       instruction := "You are the Study Planner Agent of EIVA AI.\nYour task is to:\n- Create exam-oriented study timetables\n- Break subjects into daily plans\n- Suggest revision and practice time\n- Keep plans realistic for stressed students\n\nAlways optimize for limited time and clarity." })
  , ("ASSIGNMENT_ASSISTANT",
     { id := "assignment_assistant_agent"
       name := "Assignment Assistant Agent"
       description := "Helps students write and improve assignments"
       model := "gemini-1.5-flash"
       supportsSearch := true
       instruction := "You are the Assignment Assistant Agent of EIVA AI.\nYour task is to:\n- Help students write assignments from given topics\n- Improve grammar and clarity\n- Structure content properly (introduction, body, conclusion)\n- Rewrite content to be plagiarism-safe\n\nWrite in simple, academic, student-appropriate language." })
  , ("GENERAL",
     { id := "general_agent"
       name := "EIVA Core"
       description := "General assistance"
       model := "gemini-1.5-flash"
       supportsSearch := true
       instruction := "You are EIVA, a helpful assistant for a Q&A community. Provide concise, accurate, and structured answers. You can analyze images if provided." })
  ]

/-- The six instruction strings of the `AGENTS` table. -/
def agentInstructions : List String :=
  AGENTS.map (fun a => a.2.instruction)

/-! ## `src/components/AIChat.tsx` — the AI-chat send handler -/

/-- A chat message as kept in the AI-chat message list (`ChatMessage`). -/
structure ChatMessage where
  id : String
  role : String
  parts : List ContentPart
  timestamp : String
  sources : Option (List String)
  deriving DecidableEq

/-- The user message `handleSend` appends: trimmed input text, then the
image part when a file is attached. -/
def userChatMessage (input : String) (file : Option ImagePart) (now : String) : ChatMessage :=
  { id := now
    role := "user"
    parts := [ContentPart.text (jsTrim input)] ++
      (match file with
       | some ip => [ContentPart.image ip]
       | none => [])
    timestamp := now
    sources := none }

/-- The model message built from a successful AI response. -/
def aiChatMessage (r : AIResponse) (now : String) : ChatMessage :=
  { id := "ai-" ++ now
    role := "model"
    parts := [ContentPart.text r.text]
    timestamp := now
    sources := r.sources }

/-- The fallback model message appended in the catch branch of `handleSend`. -/
def aiChatErrorMessage (now : String) : ChatMessage :=
  { id := "err"
    role := "model"
    parts := [ContentPart.text "Connection severed. Neural link unstable."]
    timestamp := now
    sources := none }

/-- `handleSend` (AIChat.tsx lines 168-224) as a transition on the message
list.  `outcome` is the result of the awaited `generateAIAnswer` call:
`Except.error` models a thrown rejection caught by the handler.  The guard
returns the list unchanged when the trimmed input is empty with no file, or
when a send is already in flight. -/
def handleSend (msgs : List ChatMessage) (input : String) (file : Option ImagePart)
    (isLoading : Bool) (outcome : Except Unit AIResponse)
    (nowUser nowAI : String) : List ChatMessage :=
  if ((jsTrim input) = "" ∧ file = none) ∨ isLoading = true then msgs
  else
    let msgs1 := msgs ++ [userChatMessage input file nowUser]
    match outcome with
    | Except.ok r => msgs1 ++ [aiChatMessage r nowAI]
    | Except.error _ => msgs1 ++ [aiChatErrorMessage nowAI]

/-! ## Backend database model (tables used by `storageService.ts`) -/

/-- A row of the `users` table; nullable text columns are `Option`. -/
structure DbUser where
  id : String
  name : Option String
  username : Option String
  email : Option String
  bio : Option String
  profile_pic : Option String
  created_at : String
  deriving DecidableEq

/-- A row of the `posts` table.  `created_at` is the timestamp the rows are
ordered by; it is modelled as a number. -/
structure DbPost where
  id : String
  user_id : String
  username : String
  question : String
  ai_answer : String
  space : Option String
  created_at : Nat
  deriving DecidableEq

/-- A row of the `likes` table. -/
structure DbLike where
  id : Nat
  post_id : String
  user_id : String
  kind : String
  deriving DecidableEq

/-- A row of the `comments` table. -/
structure DbComment where
  id : String
  post_id : String
  user_id : String
  text : String
  created_at : Nat
  deriving DecidableEq

/-- A row of the `follows` table. -/
structure DbFollow where
  id : Nat
  follower_id : String
  following_id : String
  deriving DecidableEq

/-- The hosted database: the tables this client reads and writes, plus a
counter supplying fresh row ids for inserts. -/
structure DB where
  users : List DbUser
  posts : List DbPost
  likes : List DbLike
  comments : List DbComment
  follows : List DbFollow
  nextId : Nat
  deriving DecidableEq

/-- Row lookup for a joined `users:user_id ( ... )` select. -/
def lookupDbUser (db : DB) (uid : String) : Option DbUser :=
  db.users.find? (fun u => u.id = uid)

/-! ## View-model shapes (`src/types.ts`) -/

/-- The view-model `User` shape. -/
structure User where
  id : String
  name : String
  username : String
  email : String
  bio : String
  avatar : String
  joinedAt : String
  following : List String
  followers : List String
  isVerified : Bool
  deriving DecidableEq

/-- The view-model `Comment` shape. -/
structure Comment where
  id : String
  userId : String
  userName : String
  userAvatar : String
  content : String
  createdAt : Nat
  deriving DecidableEq

/-- The view-model `Question` shape. -/
structure Question where
  id : String
  userId : String
  userName : String
  userAvatar : String
  title : String
  content : String
  aiAnswer : String
  imageUrl : Option String
  category : String
  createdAt : Nat
  likes : List String
  dislikes : List String
  comments : List Comment
  isOfficial : Bool
  deriving DecidableEq

/-- `SYSTEM_EIVA_ID` from storageService.ts. -/
def SYSTEM_EIVA_ID : String := "00000000-0000-0000-0000-000000000000"

/-- `mapUser` (storageService.ts lines 7-18): maps a `users` row to the
view-model `User`.  The `followingIds` parameter defaults to the empty
list, exactly as in the source. -/
def mapUser (dbUser : DbUser) (followingIds : List String := []) : User :=
  { id := dbUser.id
    name := jsOrOpt dbUser.name "Anonymous"
    username := jsOrOpt dbUser.username "user"
    email := jsOrOpt dbUser.email ""
    bio := jsOrOpt dbUser.bio ""
    avatar := jsOrOpt dbUser.profile_pic
      ("https://api.dicebear.com/7.x/avataaars/svg?seed=" ++ jsShow dbUser.username)
    joinedAt := dbUser.created_at
    following := followingIds
    followers := []
    isVerified := false }

/-! ## `listenToPosts` (storageService.ts lines 155-210) -/

/-- The like rows of one post, in table order (`likes.select.eq(post_id)`). -/
def likesFor (db : DB) (pid : String) : List DbLike :=
  db.likes.filter (fun l => l.post_id = pid)

/-- The comment rows of one post, in table order. -/
def commentsFor (db : DB) (pid : String) : List DbComment :=
  db.comments.filter (fun c => c.post_id = pid)

/-- The comment mapping inside `listenToPosts`: joined username defaulting
to `User`, joined avatar defaulting to the empty string. -/
def mapDbCommentFeed (db : DB) (c : DbComment) : Comment :=
  { id := c.id
    userId := c.user_id
    userName := jsOrOpt ((lookupDbUser db c.user_id).bind (fun u => u.username)) "User"
    userAvatar := jsOrOpt ((lookupDbUser db c.user_id).bind (fun u => u.profile_pic)) ""
    content := c.text
    createdAt := c.created_at }

/-- The post mapping inside `listenToPosts`: hydrates one `posts` row into
the view-model `Question`. -/
def mapPostToQuestion (db : DB) (p : DbPost) : Question :=
  { id := p.id
    userId := p.user_id
    userName := p.username
    userAvatar := jsOrOpt ((lookupDbUser db p.user_id).bind (fun u => u.profile_pic))
      "https://api.dicebear.com/7.x/avataaars/svg?seed=unknown"
    title := p.question
    content := ""
    aiAnswer := p.ai_answer
    imageUrl := none
    category := jsOrOpt p.space "General"
    createdAt := p.created_at
    likes := (likesFor db p.id).map (fun l => l.user_id)
    dislikes := []
    comments := (commentsFor db p.id).map (mapDbCommentFeed db)
    isOfficial := false }

/-- `order by created_at descending`, as the query requests. -/
def postsOrderedDesc (db : DB) : List DbPost :=
  List.insertionSort (fun a b => b.created_at ≤ a.created_at) db.posts

/-- The `fetchAll` closure of `listenToPosts`: re-fetches the entire posts
collection, ordered by `created_at` descending, and maps every row. -/
def fetchAllQuestions (db : DB) : List Question :=
  (postsOrderedDesc db).map (mapPostToQuestion db)

/-- A change event pushed on the `posts-realtime` channel (the payload the
subscription receives for `event: *`). -/
structure ChangeEvent where
  eventType : String
  rowId : Option String
  deriving DecidableEq

/-- The handler `listenToPosts` registers on the channel: for any change
event it runs `fetchAll` against the current database.  `prev` is the list
most recently delivered to the callback; the source closure does not read
it (no incremental merge), which the definition makes explicit. -/
def postsChannelHandler (db : DB) (e : ChangeEvent) (prev : List Question) : List Question :=
  fetchAllQuestions db

/-! ## `fetchPosts` (postService.ts lines 4-67) -/

/-- The comment mapping inside `postService.fetchPosts` (defaults differ
from the feed mapping: `Unknown` instead of `User`). -/
def mapDbCommentService (db : DB) (c : DbComment) : Comment :=
  { id := c.id
    userId := c.user_id
    userName := jsOrOpt ((lookupDbUser db c.user_id).bind (fun u => u.username)) "Unknown"
    userAvatar := jsOrOpt ((lookupDbUser db c.user_id).bind (fun u => u.profile_pic)) ""
    content := c.text
    createdAt := c.created_at }

/-- The post mapping inside `postService.fetchPosts`. -/
def mapPostToQuestionService (db : DB) (p : DbPost) : Question :=
  { id := p.id
    userId := p.user_id
    userName := jsOrOpt ((lookupDbUser db p.user_id).bind (fun u => u.username)) "Unknown"
    userAvatar := jsOrOpt ((lookupDbUser db p.user_id).bind (fun u => u.profile_pic)) ""
    title := p.question
    content := ""
    aiAnswer := p.ai_answer
    imageUrl := none
    category := jsOrOpt p.space "General"
    createdAt := p.created_at
    likes := (likesFor db p.id).map (fun l => l.user_id)
    dislikes := []
    comments := (commentsFor db p.id).map (mapDbCommentService db)
    isOfficial := false }

/-- `postService.fetchPosts`: all posts ordered by `created_at` descending,
mapped to `Question` view-models. -/
def fetchPostsService (db : DB) : List Question :=
  (postsOrderedDesc db).map (mapPostToQuestionService db)

/-! ## `toggleVote` / `toggleFollow` (storageService.ts lines 231-263) -/

/-- The vote direction argument of `toggleVote` (the `'up' | 'down'` union). -/
inductive VoteKind where
  | up
  | down
  deriving DecidableEq

/-- The rows of the `likes` table matching one `(post, user)` pair, in
table order. -/
def pairLikes (db : DB) (pid uid : String) : List DbLike :=
  db.likes.filter (fun l => l.post_id = pid ∧ l.user_id = uid)

/-- `maybeSingle` on that filter: one matching row yields it; zero yields
null; more than one is an error, which the caller ignores, leaving the
destructured `data` null as well. -/
def findLike (db : DB) (pid uid : String) : Option DbLike :=
  match pairLikes db pid uid with
  | [l] => some l
  | _ => none

/-- `toggleVote` (storageService.ts lines 231-245): delete the existing like
row by id, or insert a fresh row whose `type` column is always the literal
`like`.  The `kind` argument is never read. -/
def toggleVote (db : DB) (pid uid : String) (kind : VoteKind) : DB :=
  match findLike db pid uid with
  | some l => { db with likes := db.likes.filter (fun r => r.id ≠ l.id) }
  | none =>
      { db with
        likes := db.likes ++ [{ id := db.nextId, post_id := pid, user_id := uid, kind := "like" }]
        nextId := db.nextId + 1 }

/-- Whether some like row for the pair exists (the liked state the UI shows). -/
def likedB (db : DB) (pid uid : String) : Bool :=
  !(pairLikes db pid uid).isEmpty

/-- The rows of the `follows` table matching one (follower, following) pair. -/
def pairFollows (db : DB) (cu tu : String) : List DbFollow :=
  db.follows.filter (fun f => f.follower_id = cu ∧ f.following_id = tu)

/-- `maybeSingle` on the follows filter, errors ignored as in the source. -/
def findFollow (db : DB) (cu tu : String) : Option DbFollow :=
  match pairFollows db cu tu with
  | [f] => some f
  | _ => none

/-- `toggleFollow` (storageService.ts lines 256-263). -/
def toggleFollow (db : DB) (cu tu : String) : DB :=
  match findFollow db cu tu with
  | some f => { db with follows := db.follows.filter (fun r => r.id ≠ f.id) }
  | none =>
      { db with
        follows := db.follows ++ [{ id := db.nextId, follower_id := cu, following_id := tu }]
        nextId := db.nextId + 1 }

/-- Whether some follow row for the pair exists. -/
def followsB (db : DB) (cu tu : String) : Bool :=
  !(pairFollows db cu tu).isEmpty

/-! ## `handleAskQuestion` (App.tsx lines 157-195) and the ask form -/

/-- An attached image file as the form holds it (name, MIME type, the
base64 payload the `FileReader` produces, and its size). -/
structure FileData where
  fname : String
  mimeType : String
  base64 : String
  size : Nat
  deriving DecidableEq

/-- One awaited external call performed by the ask-question pipeline, in
program order. -/
inductive Effect where
  | uploadImage (postId : String) (f : FileData)
  | createPostEff (q : Question)
  | genAIRequest (prompt : String) (img : Option ImagePart)
  | updateAIAnswerEff (postId : String) (answer : String)
  | toastEff (msg : String)
  deriving DecidableEq

/-- The environment `handleAskQuestion` runs against: the outcome of the
storage upload (`uploadPostImage` returns a URL or null and never throws),
the outcome of the `createPost` insert (which throws on error), the
generative-AI endpoint, the generated post id and the clock. -/
structure AskEnv where
  uploadResult : Option String
  createResult : Except Unit Unit
  oracle : Oracle
  postId : String
  now : Nat

/-- The image part forwarded to the AI call: present only when a file is
attached and its upload returned a URL. -/
def askImagePart (env : AskEnv) (file : Option FileData) : Option ImagePart :=
  match file, env.uploadResult with
  | some f, some _ => some { data := f.base64, mimeType := f.mimeType }
  | _, _ => none

/-- The `newQuestion` record `handleAskQuestion` builds: the stored answer
is the placeholder string, the category falls back to `General`. -/
def newQuestionOf (env : AskEnv) (user : User) (title category : String)
    (file : Option FileData) : Question :=
  { id := env.postId
    userId := user.id
    userName := user.username
    userAvatar := user.avatar
    title := title
    content := ""
    aiAnswer := "EIVA is analyzing your request..."
    imageUrl := match file, env.uploadResult with
      | some _, some url => some url
      | _, _ => none
    likes := []
    dislikes := []
    comments := []
    category := jsOrStr category "General"
    createdAt := env.now
    isOfficial := user.id = SYSTEM_EIVA_ID }

/-- `handleAskQuestion` (App.tsx lines 157-195) as the ordered list of
awaited external calls it performs.  Each awaited call completes before the
next begins, so the list order is the temporal order.  Only `createPost`
can throw inside the try block; on that error the pipeline stops and the
failure toast is shown. -/
def handleAskQuestion (env : AskEnv) (user : User) (title category : String)
    (file : Option FileData) : List Effect :=
  let uploadEffects := match file with
    | some f => [Effect.uploadImage env.postId f]
    | none => []
  let imagePart := askImagePart env file
  let q := newQuestionOf env user title category file
  uploadEffects ++ [Effect.createPostEff q] ++
    match env.createResult with
    | Except.error _ => [Effect.toastEff "Creation failed. Please try again."]
    | Except.ok _ =>
        let resp := (generateAIAnswer env.oracle title imagePart).1
        [Effect.genAIRequest title imagePart,
         Effect.updateAIAnswerEff env.postId resp.text,
         Effect.toastEff (match q.imageUrl with
           | some _ => "EIVA analyzed your image!"
           | none => "Wisdom synced.")]

/-- The local state of the `AskQuestion` form. -/
structure AskFormState where
  title : String
  selectedFile : Option FileData
  previewUrl : Option String
  deriving DecidableEq

/-- `handleSubmit` of the `AskQuestion` form wired to `App.handleAskQuestion`
(the form passes the trimmed title and the app fixes the category to
`General`).  When the trimmed title is empty, or a submission is already in
flight, nothing at all happens: no effect is performed and the form state
is untouched.  Otherwise the pipeline runs and the form is reset. -/
def askSubmitForm (env : AskEnv) (user : User) (st : AskFormState)
    (isLoading : Bool) : List Effect × AskFormState :=
  if (jsTrim st.title) ≠ "" ∧ isLoading = false then
    (handleAskQuestion env user (jsTrim st.title) "General" st.selectedFile,
     { title := "", selectedFile := none, previewUrl := none })
  else ([], st)

/-! ## `decodeAudioData` (geminiService.ts lines 68-92) -/

/-- The base64 alphabet. -/
def b64Alphabet : List Char :=
  "ABCDEFGHIJKLMNOPQRSTUVWXYZabcdefghijklmnopqrstuvwxyz0123456789+/".toList

/-- The base64 alphabet index of a character, none for a non-alphabet
character (`atob` throws on those). -/
def b64Char (c : Char) : Option Nat :=
  if c ∈ b64Alphabet then some (b64Alphabet.indexOf c) else none

/-- Decode base64 characters in groups of four, handling the `=` padding of
the final group.  Yields the decoded bytes or none for malformed input. -/
def b64DecodeChunks : List Char → Option (List Nat)
  | [] => some []
  | a :: b :: c :: d :: rest =>
      match b64Char a, b64Char b with
      | some x, some y =>
          if c = '=' ∧ d = '=' ∧ rest = [] then
            some [x * 4 + y / 16]
          else
            match b64Char c with
            | some z =>
                if d = '=' ∧ rest = [] then
                  some [x * 4 + y / 16, (y % 16) * 16 + z / 4]
                else
                  match b64Char d with
                  | some w =>
                      match b64DecodeChunks rest with
                      | some bytes =>
                          some ([x * 4 + y / 16, (y % 16) * 16 + z / 4, (z % 4) * 64 + w] ++ bytes)
                      | none => none
                  | none => none
            | none => none
      | _, _ => none
  | _ => none

/-- `atob`: decode a base64 string to its bytes. -/
def b64Decode (s : String) : Option (List Nat) :=
  b64DecodeChunks s.toList

/-- Two's-complement reading of a 16-bit word. -/
def toSigned16 (n : Nat) : Int :=
  if n < 32768 then (n : Int) else (n : Int) - 65536

/-- `new Int16Array(bytes.buffer)`: consecutive byte pairs, little-endian,
read as signed 16-bit integers. -/
def toInt16List : List Nat → List Int
  | b0 :: b1 :: rest => toSigned16 (b0 + 256 * b1) :: toInt16List rest
  | _ => []

/-- The `AudioBuffer` the decoder fills: channel count, sample rate, frame
count and the single channel's samples. -/
structure AudioBufferModel where
  numberOfChannels : Nat
  sampleRate : Nat
  length : Nat
  channelData : List ℚ
  deriving DecidableEq

/-- `decodeAudioData` (geminiService.ts lines 68-92): base64-decode the
input (`atob` throws an `InvalidCharacterError` on malformed input), view
the bytes as an `Int16Array` (which throws a `RangeError` when the byte
length is odd), then call `ctx.createBuffer(1, frameCount, 24000)` (which
throws a `NotSupportedError` when `frameCount` is zero) and fill the mono
buffer with each sample divided by 32768. -/
def decodeAudioData (base64 : String) : Except String AudioBufferModel :=
  match b64Decode base64 with
  | none => Except.error "InvalidCharacterError"
  | some bytes =>
      if bytes.length % 2 ≠ 0 then Except.error "RangeError"
      else
        let dataInt16 := toInt16List bytes
        if dataInt16.length = 0 then Except.error "NotSupportedError"
        else
          Except.ok
            { numberOfChannels := 1
              sampleRate := 24000
              length := dataInt16.length
              channelData := dataInt16.map (fun v : ℤ => (v : ℚ) / 32768) }

/-! ## Claim theorems -/

/-- C1 (counterexample): the claimed prompt router does not exist.  For the
concrete prompt `hello` the AI-assistant path issues exactly one request to
the endpoint, not a classification request followed by a second request;
moreover the system instruction it carries is not any instruction of the
`AGENTS` lookup table, which has no callers. -/
theorem promptRouting_counterexample :
    (generateAIAnswer (fun _ => GenOutcome.failure) "hello" none).2.length = 1 ∧
    (generateAIAnswer (fun _ => GenOutcome.failure) "hello" none).2.length ≠ 2 ∧
    eivaSystemInstruction ∉ agentInstructions := by
  refine ⟨rfl, by decide, by decide⟩

/-- C1 (amended): for every prompt submitted to the AI assistant,
`generateAIAnswer` issues exactly one content-generation request, carrying
the fixed hard-coded system instruction; no classification request is ever
issued and the instruction used is not any entry of the (uncalled) `AGENTS`
table. -/
theorem generateAIAnswer_single_fixed_request :
    ∀ (o : Oracle) (prompt : String) (img : Option ImagePart),
      (generateAIAnswer o prompt img).2 = [generateAIAnswerRequest prompt img] ∧
      (generateAIAnswerRequest prompt img).systemInstruction = some eivaSystemInstruction ∧
      eivaSystemInstruction ∉ agentInstructions := by
  intro o prompt img
  refine ⟨?_, rfl, by decide⟩
  cases h : o (generateAIAnswerRequest prompt img) <;> simp [generateAIAnswer, h]

/-- C2: when the endpoint call throws, `generateAIAnswer` returns the
fallback text `Transmission error. Please try again later.` instead of
propagating; and when the awaited call inside the AI-chat `handleSend`
throws, the handler appends a model message carrying the fallback text
`Connection severed. Neural link unstable.` to the message list. -/
theorem aiChat_error_fallbacks :
    (∀ (o : Oracle) (prompt : String) (img : Option ImagePart),
      o (generateAIAnswerRequest prompt img) = GenOutcome.failure →
        (generateAIAnswer o prompt img).1.text = "Transmission error. Please try again later.") ∧
    (∀ (msgs : List ChatMessage) (input : String) (file : Option ImagePart) (nowU nowA : String),
      (jsTrim input) ≠ "" →
        handleSend msgs input file false (Except.error ()) nowU nowA =
          msgs ++ [userChatMessage input file nowU, aiChatErrorMessage nowA] ∧
        (aiChatErrorMessage nowA).role = "model" ∧
        (aiChatErrorMessage nowA).parts =
          [ContentPart.text "Connection severed. Neural link unstable."]) := by
  constructor
  · intro o prompt img h
    simp [generateAIAnswer, h]
  · intro msgs input file nowU nowA h
    refine ⟨?_, rfl, rfl⟩
    simp [handleSend, h]

/-- C2 witness: the fallbacks at concrete inputs. -/
theorem aiChat_error_fallbacks_witness :
    (generateAIAnswer (fun _ => GenOutcome.failure) "hi" none).1.text =
      "Transmission error. Please try again later." ∧
    handleSend [] "hi" none false (Except.error ()) "1" "2" =
      [userChatMessage "hi" none "1", aiChatErrorMessage "2"] := by
  refine ⟨aiChat_error_fallbacks.1 _ "hi" none rfl, ?_⟩
  have h := (aiChat_error_fallbacks.2 [] "hi" none "1" "2" (by decide)).1
  simpa using h

/-- C4: `generateAIAnswer` issues exactly one request per invocation; in
particular after a failed request no second (retry) request is issued, and
the fallback result is returned after the single failed attempt. -/
theorem generateAIAnswer_no_retry :
    ∀ (o : Oracle) (prompt : String) (img : Option ImagePart),
      (generateAIAnswer o prompt img).2.length = 1 ∧
      (o (generateAIAnswerRequest prompt img) = GenOutcome.failure →
        generateAIAnswer o prompt img =
          ({ text := "Transmission error. Please try again later.",
             agentName := "System Error", sources := none },
           [generateAIAnswerRequest prompt img])) := by
  intro o prompt img
  constructor
  · cases h : o (generateAIAnswerRequest prompt img) <;> simp [generateAIAnswer, h]
  · intro h
    simp [generateAIAnswer, h]

/-- C4 witness: a concrete always-failing endpoint gets exactly one request
and the fallback result. -/
theorem generateAIAnswer_no_retry_witness :
    (generateAIAnswer (fun _ => GenOutcome.failure) "ping" none).2.length = 1 ∧
    generateAIAnswer (fun _ => GenOutcome.failure) "ping" none =
      ({ text := "Transmission error. Please try again later.",
         agentName := "System Error", sources := none },
       [generateAIAnswerRequest "ping" none]) :=
  ⟨(generateAIAnswer_no_retry (fun _ => GenOutcome.failure) "ping" none).1,
   (generateAIAnswer_no_retry (fun _ => GenOutcome.failure) "ping" none).2 rfl⟩

/-- Shared fixture: a concrete environment for the ask-question pipeline
whose backend insert succeeds. -/
def envOk : AskEnv :=
  { uploadResult := some "https://cdn/x.png"
    createResult := Except.ok ()
    oracle := fun _ => GenOutcome.success (some "the answer")
    postId := "p1"
    now := 5 }

/-- Shared fixture: the same environment with a failing insert. -/
def envErr : AskEnv :=
  { envOk with createResult := Except.error () }

/-- Shared fixture: a concrete view-model user. -/
def userA : User :=
  { id := "u1", name := "Ada", username := "ada", email := "ada@x.com", bio := ""
    avatar := "https://a/ada.png", joinedAt := "t0", following := [], followers := []
    isVerified := false }

/-- C6: submitting the ask-question form with empty text is a no-op — no
effect at all is performed (in particular no post row is created and no
generative-AI request is issued) and the form state is unchanged. -/
theorem askSubmit_empty_noop :
    ∀ (env : AskEnv) (user : User) (st : AskFormState) (isLoading : Bool),
      jsTrim st.title = "" →
      askSubmitForm env user st isLoading = ([], st) := by
  intro env user st il h
  simp [askSubmitForm, h]

/-- C6 witness: the empty submission at a concrete state. -/
theorem askSubmit_empty_noop_witness :
    askSubmitForm envOk userA { title := "", selectedFile := none, previewUrl := none } false =
      ([], { title := "", selectedFile := none, previewUrl := none }) :=
  askSubmit_empty_noop envOk userA _ false (by decide)

/-- C7: `mapUser` mirrors a `users` row into the view-model `User`: id and
joinedAt are copied, email and bio are copied when present (empty when
null), name and username take their defaults exactly when the column is
null or empty and are copied otherwise, the avatar falls back to the
dicebear URL seeded by the username column when `profile_pic` is absent,
`following` is the supplied list (empty when none is supplied) and
`followers` is always empty. -/
theorem mapUser_mirrors :
    ∀ (row : DbUser) (fids : List String),
      (mapUser row fids).id = row.id ∧
      (mapUser row fids).joinedAt = row.created_at ∧
      (∀ e, row.email = some e → (mapUser row fids).email = e) ∧
      (row.email = none → (mapUser row fids).email = "") ∧
      (∀ b, row.bio = some b → (mapUser row fids).bio = b) ∧
      (row.bio = none → (mapUser row fids).bio = "") ∧
      ((row.name = none ∨ row.name = some "") → (mapUser row fids).name = "Anonymous") ∧
      (∀ s, row.name = some s → s ≠ "" → (mapUser row fids).name = s) ∧
      ((row.username = none ∨ row.username = some "") → (mapUser row fids).username = "user") ∧
      (∀ s, row.username = some s → s ≠ "" → (mapUser row fids).username = s) ∧
      (∀ u, row.profile_pic = none → row.username = some u →
        (mapUser row fids).avatar = "https://api.dicebear.com/7.x/avataaars/svg?seed=" ++ u) ∧
      (mapUser row fids).following = fids ∧
      (mapUser row fids).followers = [] ∧
      (mapUser row).following = [] := by
  intro row fids
  refine ⟨rfl, rfl, ?_, ?_, ?_, ?_, ?_, ?_, ?_, ?_, ?_, rfl, rfl, rfl⟩
  · intro e he
    by_cases h : e = "" <;> simp [mapUser, jsOrOpt, he, h]
  · intro he
    simp [mapUser, jsOrOpt, he]
  · intro b hb
    by_cases h : b = "" <;> simp [mapUser, jsOrOpt, hb, h]
  · intro hb
    simp [mapUser, jsOrOpt, hb]
  · rintro (hn | hn) <;> simp [mapUser, jsOrOpt, hn]
  · intro s hs hne
    simp [mapUser, jsOrOpt, hs, hne]
  · rintro (hn | hn) <;> simp [mapUser, jsOrOpt, hn]
  · intro s hs hne
    simp [mapUser, jsOrOpt, hs, hne]
  · intro u hpic hu
    simp [mapUser, jsOrOpt, jsShow, hpic, hu]

/-- C7 witness: a concrete row with a present username and email, an empty
name and an absent profile picture. -/
theorem mapUser_mirrors_witness :
    (mapUser { id := "u2", name := some "", username := some "bob", email := some "b@x.com",
               bio := none, profile_pic := none, created_at := "t1" } ["f1"]).email = "b@x.com" ∧
    (mapUser { id := "u2", name := some "", username := some "bob", email := some "b@x.com",
               bio := none, profile_pic := none, created_at := "t1" } ["f1"]).name = "Anonymous" ∧
    (mapUser { id := "u2", name := some "", username := some "bob", email := some "b@x.com",
               bio := none, profile_pic := none, created_at := "t1" } ["f1"]).username = "bob" ∧
    (mapUser { id := "u2", name := some "", username := some "bob", email := some "b@x.com",
               bio := none, profile_pic := none, created_at := "t1" } ["f1"]).avatar =
      "https://api.dicebear.com/7.x/avataaars/svg?seed=bob" := by
  have h := mapUser_mirrors
    { id := "u2", name := some "", username := some "bob", email := some "b@x.com",
      bio := none, profile_pic := none, created_at := "t1" } ["f1"]
  exact ⟨h.2.2.1 "b@x.com" rfl,
         h.2.2.2.2.2.2.1 (Or.inr rfl),
         h.2.2.2.2.2.2.2.2.2.1 "bob" rfl (by decide),
         h.2.2.2.2.2.2.2.2.2.2.1 "bob" rfl rfl⟩

/-- The descending `created_at` order used by the posts query is total. -/
instance : IsTotal DbPost (fun a b => b.created_at ≤ a.created_at) :=
  ⟨fun a b => Nat.le_total b.created_at a.created_at⟩

/-- The descending `created_at` order used by the posts query is transitive. -/
instance : IsTrans DbPost (fun a b => b.created_at ≤ a.created_at) :=
  ⟨fun _ _ _ hab hbc => le_trans hbc hab⟩

/-- C3: every change event on the posts realtime channel makes
`listenToPosts` deliver the complete, freshly re-fetched and re-mapped
posts collection: the handler's output is `fetchAll` of the current
database, is the same whatever the event and whatever list was delivered
before (no incremental merge), contains exactly the ids of all stored
posts, and is ordered by `created_at` descending. -/
theorem listenToPosts_full_refetch :
    ∀ (db : DB) (e e' : ChangeEvent) (prev prev' : List Question),
      postsChannelHandler db e prev = fetchAllQuestions db ∧
      postsChannelHandler db e prev = postsChannelHandler db e' prev' ∧
      ((postsChannelHandler db e prev).map Question.id).Perm (db.posts.map DbPost.id) ∧
      List.Sorted (fun q r => r.createdAt ≤ q.createdAt) (postsChannelHandler db e prev) := by
  intro db e e' prev prev'
  refine ⟨rfl, rfl, ?_, ?_⟩
  · have hperm : (postsOrderedDesc db).Perm db.posts := List.perm_insertionSort _ _
    have hmap := hperm.map (fun p => p.id)
    simpa [postsChannelHandler, fetchAllQuestions, List.map_map, Function.comp,
      mapPostToQuestion] using hmap
  · have hs : List.Sorted (fun a b : DbPost => b.created_at ≤ a.created_at)
        (postsOrderedDesc db) := List.sorted_insertionSort _ _
    simpa [postsChannelHandler, fetchAllQuestions, List.Sorted, List.pairwise_map,
      mapPostToQuestion] using hs

/-- Shared fixture: a concrete attached image file. -/
def fileA : FileData :=
  { fname := "a.png", mimeType := "image/png", base64 := "QUFB", size := 3 }

/-- Shared fixture: a concrete form state with text and an attached file. -/
def stA : AskFormState :=
  { title := " what is DNS? ", selectedFile := some fileA, previewUrl := some "blob:1" }

/-- C5: on a submission with non-empty text, the pipeline performs its
awaited calls in this fixed order: the image upload first when a file is
attached, then the post insert whose stored answer is the placeholder
`EIVA is analyzing your request...`, then — and only if the insert
succeeded — the single generative-AI request for the question title,
then the update of the stored row's `ai_answer` to the returned text.
When the insert fails, no generative-AI request is ever issued. -/
theorem handleAskQuestion_sequenced :
    ∀ (env : AskEnv) (user : User) (st : AskFormState),
      jsTrim st.title ≠ "" →
      (askSubmitForm env user st false).1 =
        (match st.selectedFile with
         | some f => [Effect.uploadImage env.postId f]
         | none => []) ++
        [Effect.createPostEff (newQuestionOf env user (jsTrim st.title) "General" st.selectedFile)] ++
        (match env.createResult with
         | Except.ok _ =>
            [Effect.genAIRequest (jsTrim st.title) (askImagePart env st.selectedFile),
             Effect.updateAIAnswerEff env.postId
               ((generateAIAnswer env.oracle (jsTrim st.title)
                  (askImagePart env st.selectedFile)).1.text),
             Effect.toastEff
               (match (newQuestionOf env user (jsTrim st.title) "General" st.selectedFile).imageUrl with
                | some _ => "EIVA analyzed your image!"
                | none => "Wisdom synced.")]
         | Except.error _ => [Effect.toastEff "Creation failed. Please try again."]) ∧
      (newQuestionOf env user (jsTrim st.title) "General" st.selectedFile).aiAnswer =
        "EIVA is analyzing your request..." ∧
      (env.createResult = Except.error () →
        ∀ p i, Effect.genAIRequest p i ∉ (askSubmitForm env user st false).1) := by
  intro env user st h
  refine ⟨?_, rfl, ?_⟩
  · cases hc : env.createResult <;> simp [askSubmitForm, handleAskQuestion, h, hc]
  · intro herr p i
    simp [askSubmitForm, h, handleAskQuestion, herr]
    cases st.selectedFile <;> simp

/-- C5 witness: the pipeline's trace at a concrete environment with an
attached file and a succeeding insert, and the absence of any AI request at
the same state when the insert fails. -/
theorem handleAskQuestion_sequenced_witness :
    (askSubmitForm envOk userA stA false).1 =
      [Effect.uploadImage "p1" fileA,
       Effect.createPostEff (newQuestionOf envOk userA "what is DNS?" "General" (some fileA)),
       Effect.genAIRequest "what is DNS?" (some { data := "QUFB", mimeType := "image/png" }),
       Effect.updateAIAnswerEff "p1" "the answer",
       Effect.toastEff "EIVA analyzed your image!"] ∧
    Effect.genAIRequest "what is DNS?" (some { data := "QUFB", mimeType := "image/png" }) ∉
      (askSubmitForm envErr userA stA false).1 := by
  constructor
  · have h := (handleAskQuestion_sequenced envOk userA stA (by decide)).1
    simpa [envOk, stA, fileA, generateAIAnswer, generateAIAnswerRequest, jsOrOpt,
      newQuestionOf, askImagePart] using h
  · exact (handleAskQuestion_sequenced envErr userA stA (by decide)).2.2 rfl _ _

/-- Two successive filters commute. -/
theorem listFilterSwap {α : Type} (p q : α → Bool) (l : List α) :
    (l.filter q).filter p = (l.filter p).filter q := by
  induction l with
  | nil => rfl
  | cons a t ih =>
      by_cases hp : p a <;> by_cases hq : q a <;>
        simp [List.filter_cons, hp, hq, ih]

/-- Effect of `toggleVote` on the pair's like rows, given the invariant the
function itself maintains (at most one row per pair): an existing row is
deleted, otherwise a fresh `like` row is inserted. -/
theorem pairLikes_toggleVote (db : DB) (pid uid : String) (k : VoteKind)
    (h : (pairLikes db pid uid).length ≤ 1) :
    pairLikes (toggleVote db pid uid k) pid uid =
      if (pairLikes db pid uid).isEmpty then
        [{ id := db.nextId, post_id := pid, user_id := uid, kind := "like" }]
      else [] := by
  rcases hl : pairLikes db pid uid with _ | ⟨l, tl⟩
  · have hf : findLike db pid uid = none := by rw [findLike, hl]
    have hl' : db.likes.filter (fun x => x.post_id = pid ∧ x.user_id = uid) = [] := hl
    simp [toggleVote, hf, pairLikes, List.filter_append, hl']
    simpa using List.filter_eq_nil_iff.mp hl'
  · cases tl with
    | nil =>
        have hf : findLike db pid uid = some l := by rw [findLike, hl]
        have hl' : db.likes.filter (fun x => x.post_id = pid ∧ x.user_id = uid) = [l] := hl
        simp only [toggleVote, hf, List.isEmpty_cons, if_neg Bool.false_ne_true, pairLikes]
        rw [listFilterSwap _ _ db.likes, hl']
        simp
    | cons l' tl' =>
        rw [hl] at h
        simp at h

/-- `toggleVote` preserves the at-most-one-row invariant. -/
theorem pairLikes_toggleVote_len (db : DB) (pid uid : String) (k : VoteKind)
    (h : (pairLikes db pid uid).length ≤ 1) :
    (pairLikes (toggleVote db pid uid k) pid uid).length ≤ 1 := by
  rw [pairLikes_toggleVote db pid uid k h]
  split <;> simp

/-- `toggleVote` flips the liked state. -/
theorem likedB_toggleVote (db : DB) (pid uid : String) (k : VoteKind)
    (h : (pairLikes db pid uid).length ≤ 1) :
    likedB (toggleVote db pid uid k) pid uid = !(likedB db pid uid) := by
  have hc := pairLikes_toggleVote db pid uid k h
  by_cases he : (pairLikes db pid uid).isEmpty <;> simp [likedB, hc, he]

/-- Effect of `toggleFollow` on the pair's follow rows, under the same
invariant. -/
theorem pairFollows_toggleFollow (db : DB) (cu tu : String)
    (h : (pairFollows db cu tu).length ≤ 1) :
    pairFollows (toggleFollow db cu tu) cu tu =
      if (pairFollows db cu tu).isEmpty then
        [{ id := db.nextId, follower_id := cu, following_id := tu }]
      else [] := by
  rcases hl : pairFollows db cu tu with _ | ⟨f, tl⟩
  · have hf : findFollow db cu tu = none := by rw [findFollow, hl]
    have hl' : db.follows.filter (fun x => x.follower_id = cu ∧ x.following_id = tu) = [] := hl
    simp [toggleFollow, hf, pairFollows, List.filter_append, hl']
    simpa using List.filter_eq_nil_iff.mp hl'
  · cases tl with
    | nil =>
        have hf : findFollow db cu tu = some f := by rw [findFollow, hl]
        have hl' : db.follows.filter (fun x => x.follower_id = cu ∧ x.following_id = tu) = [f] := hl
        simp only [toggleFollow, hf, List.isEmpty_cons, if_neg Bool.false_ne_true, pairFollows]
        rw [listFilterSwap _ _ db.follows, hl']
        simp
    | cons f' tl' =>
        rw [hl] at h
        simp at h

/-- `toggleFollow` preserves the at-most-one-row invariant. -/
theorem pairFollows_toggleFollow_len (db : DB) (cu tu : String)
    (h : (pairFollows db cu tu).length ≤ 1) :
    (pairFollows (toggleFollow db cu tu) cu tu).length ≤ 1 := by
  rw [pairFollows_toggleFollow db cu tu h]
  split <;> simp

/-- `toggleFollow` flips the following state. -/
theorem followsB_toggleFollow (db : DB) (cu tu : String)
    (h : (pairFollows db cu tu).length ≤ 1) :
    followsB (toggleFollow db cu tu) cu tu = !(followsB db cu tu) := by
  have hc := pairFollows_toggleFollow db cu tu h
  by_cases he : (pairFollows db cu tu).isEmpty <;> simp [followsB, hc, he]

/-- C8: under the at-most-one-row-per-pair invariant (interleaving writes
absent, which is the state this code itself produces), `toggleVote`
deletes the pair's like row when one exists and inserts one otherwise —
so it flips the liked state — and applying it twice restores the original
liked state; `toggleFollow` has the same involution on (follower,
following) pairs. -/
theorem toggle_involutions :
    ∀ (db : DB) (pid uid : String) (k : VoteKind) (cu tu : String),
      ((pairLikes db pid uid).length ≤ 1 →
        likedB (toggleVote db pid uid k) pid uid = !(likedB db pid uid) ∧
        likedB (toggleVote (toggleVote db pid uid k) pid uid k) pid uid = likedB db pid uid) ∧
      ((pairFollows db cu tu).length ≤ 1 →
        followsB (toggleFollow db cu tu) cu tu = !(followsB db cu tu) ∧
        followsB (toggleFollow (toggleFollow db cu tu) cu tu) cu tu = followsB db cu tu) := by
  intro db pid uid k cu tu
  constructor
  · intro h
    refine ⟨likedB_toggleVote db pid uid k h, ?_⟩
    rw [likedB_toggleVote _ _ _ _ (pairLikes_toggleVote_len db pid uid k h),
      likedB_toggleVote db pid uid k h, Bool.not_not]
  · intro h
    refine ⟨followsB_toggleFollow db cu tu h, ?_⟩
    rw [followsB_toggleFollow _ _ _ (pairFollows_toggleFollow_len db cu tu h),
      followsB_toggleFollow db cu tu h, Bool.not_not]

/-- Shared fixture: a concrete `posts` row. -/
def postA : DbPost :=
  { id := "p1", user_id := "u1", username := "ada", question := "why?",
    ai_answer := "because", space := none, created_at := 3 }

/-- Shared fixture: a database holding one user, one post, one like row and
one comment row. -/
def dbA : DB :=
  { users := [{ id := "u1", name := some "Ada", username := some "ada",
                email := some "ada@x.com", bio := none, profile_pic := some "https://a/ada.png",
                created_at := "t0" }]
    posts := [postA]
    likes := [{ id := 0, post_id := "p1", user_id := "u1", kind := "like" }]
    comments := [{ id := "c1", post_id := "p1", user_id := "u1", text := "nice",
                   created_at := 4 }]
    follows := []
    nextId := 1 }

/-- C8 witness: on the concrete database, toggling an existing like removes
it, toggling twice restores it, and likewise for a fresh follow pair. -/
theorem toggle_involutions_witness :
    likedB (toggleVote dbA "p1" "u1" VoteKind.up) "p1" "u1" = !(likedB dbA "p1" "u1") ∧
    likedB (toggleVote (toggleVote dbA "p1" "u1" VoteKind.up) "p1" "u1" VoteKind.up) "p1" "u1" =
      likedB dbA "p1" "u1" ∧
    followsB (toggleFollow dbA "u1" "u2") "u1" "u2" = !(followsB dbA "u1" "u2") ∧
    followsB (toggleFollow (toggleFollow dbA "u1" "u2") "u1" "u2") "u1" "u2" =
      followsB dbA "u1" "u2" := by
  have h := toggle_involutions dbA "p1" "u1" VoteKind.up "u1" "u2"
  have h1 := h.1 (by decide)
  have h2 := h.2 (by decide)
  exact ⟨h1.1, h1.2, h2.1, h2.2⟩

/-- C9: `toggleVote` never reads its direction argument — the `up` call and
the `down` call produce identical database states (identical reads and
writes), any row it inserts carries the literal type `like`, and every
`Question` produced by the post-loading functions (the feed mapping of
`listenToPosts` and `postService.fetchPosts`) has an empty `dislikes`
list, so a downvote is never recorded or surfaced. -/
theorem toggleVote_direction_independent :
    ∀ (db : DB) (pid uid : String),
      toggleVote db pid uid VoteKind.up = toggleVote db pid uid VoteKind.down ∧
      (∀ (k : VoteKind) (l : DbLike),
        l ∈ (toggleVote db pid uid k).likes → l ∈ db.likes ∨ l.kind = "like") ∧
      (∀ (e : ChangeEvent) (prev : List Question) (q : Question),
        q ∈ postsChannelHandler db e prev → q.dislikes = []) ∧
      (∀ q : Question, q ∈ fetchPostsService db → q.dislikes = []) := by
  intro db pid uid
  refine ⟨rfl, ?_, ?_, ?_⟩
  · intro k l hl
    rcases hf : findLike db pid uid with _ | l₀
    · simp only [toggleVote, hf] at hl
      rcases List.mem_append.mp hl with hmem | hmem
      · exact Or.inl hmem
      · simp at hmem
        subst hmem
        exact Or.inr rfl
    · simp only [toggleVote, hf] at hl
      exact Or.inl (List.mem_of_mem_filter hl)
  · intro e prev q hq
    simp only [postsChannelHandler, fetchAllQuestions, List.mem_map] at hq
    obtain ⟨p, _, rfl⟩ := hq
    rfl
  · intro q hq
    simp only [fetchPostsService, List.mem_map] at hq
    obtain ⟨p, _, rfl⟩ := hq
    rfl

/-- C9 witness: on the concrete database the two directions coincide, and
the question the feed produces has no dislikes. -/
theorem toggleVote_direction_independent_witness :
    toggleVote dbA "p1" "u1" VoteKind.up = toggleVote dbA "p1" "u1" VoteKind.down ∧
    (mapPostToQuestion dbA postA).dislikes = [] := by
  have h := toggleVote_direction_independent dbA "p1" "u1"
  refine ⟨h.1, ?_⟩
  exact h.2.2.1 { eventType := "INSERT", rowId := none } []
    (mapPostToQuestion dbA postA) (by decide)

/-- C10 (counterexample): the claimed behaviour for every base64 input
fails on two concrete inputs.  `QQ==` is valid base64 decoding to the
single byte 65, yet viewing an odd number of bytes as an `Int16Array`
throws a `RangeError`; and the empty string decodes to zero bytes, for
which `ctx.createBuffer(1, 0, 24000)` throws a `NotSupportedError`.  In
neither case is a buffer produced. -/
theorem decodeAudioData_counterexample :
    b64Decode "QQ==" = some [65] ∧
    decodeAudioData "QQ==" = Except.error "RangeError" ∧
    b64Decode "" = some [] ∧
    decodeAudioData "" = Except.error "NotSupportedError" := by
  refine ⟨rfl, rfl, rfl, rfl⟩

/-- A base64 alphabet index is below 64. -/
theorem b64Char_lt {c : Char} {x : Nat} (h : b64Char c = some x) : x < 64 := by
  unfold b64Char at h
  split at h
  · rename_i hmem
    have hlt := List.indexOf_lt_length.mpr hmem
    have hlen : b64Alphabet.length = 64 := by decide
    simp only [Option.some.injEq] at h
    subst h
    omega
  · exact absurd h (by simp)

/-- Every byte produced by the base64 decoder is below 256. -/
theorem b64DecodeChunks_lt :
    ∀ (cs : List Char) (bytes : List Nat),
      b64DecodeChunks cs = some bytes → ∀ b ∈ bytes, b < 256
  | [], bytes => by
      simp only [b64DecodeChunks, Option.some.injEq]
      rintro rfl
      simp
  | [a], bytes => by simp [b64DecodeChunks]
  | [a, b], bytes => by simp [b64DecodeChunks]
  | [a, b, c], bytes => by simp [b64DecodeChunks]
  | a :: b :: c :: d :: rest, bytes => by
      intro h bb hbb
      rcases hx : b64Char a with _ | x
      · simp [b64DecodeChunks, hx] at h
      rcases hy : b64Char b with _ | y
      · simp [b64DecodeChunks, hx, hy] at h
      have hxlt := b64Char_lt hx
      have hylt := b64Char_lt hy
      simp only [b64DecodeChunks, hx, hy] at h
      split at h
      · simp only [Option.some.injEq] at h
        subst h
        simp only [List.mem_singleton] at hbb
        subst hbb
        omega
      · rcases hz : b64Char c with _ | z  
        · simp [hz] at h
        have hzlt := b64Char_lt hz
        simp only [hz] at h
        split at h
        · simp only [Option.some.injEq] at h
          subst h
          simp only [List.mem_cons, List.not_mem_nil, or_false] at hbb
          rcases hbb with rfl | rfl
          · omega
          · omega
        · rcases hw : b64Char d with _ | w
          · simp [hw] at h
          have hwlt := b64Char_lt hw
          simp only [hw] at h
          rcases hrest : b64DecodeChunks rest with _ | bytes'
          · simp [hrest] at h
          simp only [hrest, Option.some.injEq] at h
          subst h
          simp only [List.cons_append, List.nil_append, List.mem_cons] at hbb
          rcases hbb with rfl | rfl | rfl | hbb
          · omega
          · omega
          · omega
          · exact b64DecodeChunks_lt rest bytes' hrest bb hbb

/-- Two's-complement 16-bit values lie in `[-32768, 32768)`. -/
theorem toSigned16_bounds {n : Nat} (h : n < 65536) :
    -32768 ≤ toSigned16 n ∧ toSigned16 n < 32768 := by
  unfold toSigned16
  split <;> omega

/-- Every sample of the `Int16Array` view of bytes below 256 lies in
`[-32768, 32768)`. -/
theorem toInt16List_mem_bounds :
    ∀ (bytes : List Nat), (∀ b ∈ bytes, b < 256) →
      ∀ v ∈ toInt16List bytes, -32768 ≤ v ∧ v < 32768
  | [] => by simp [toInt16List]
  | [b] => by simp [toInt16List]
  | b0 :: b1 :: rest => by
      intro hb v hv
      simp only [toInt16List, List.mem_cons] at hv
      rcases hv with rfl | hv
      · have h0 := hb b0 (by simp)
        have h1 := hb b1 (by simp)
        exact toSigned16_bounds (by omega)
      · exact toInt16List_mem_bounds rest (fun b h => hb b (by simp [h])) v hv

/-- The `Int16Array` view has half as many entries as there are bytes. -/
theorem toInt16List_length :
    ∀ bytes : List Nat, (toInt16List bytes).length = bytes.length / 2
  | [] => by simp [toInt16List]
  | [b] => by simp [toInt16List]
  | b0 :: b1 :: rest => by
      simp only [toInt16List, List.length_cons]
      rw [toInt16List_length rest]
      omega

/-- The `i`-th entry of the `Int16Array` view is the little-endian signed
16-bit value of bytes `2i` and `2i+1`. -/
theorem toInt16List_getD :
    ∀ (bytes : List Nat) (i : Nat), 2 * i + 1 < bytes.length →
      (toInt16List bytes).getD i 0 =
        toSigned16 (bytes.getD (2 * i) 0 + 256 * bytes.getD (2 * i + 1) 0)
  | [], i, h => by simp at h
  | [b], i, h => by simp at h
  | b0 :: b1 :: rest, 0, h => by simp [toInt16List]
  | b0 :: b1 :: rest, i + 1, h => by
      have ih := toInt16List_getD rest i (by simp at h; omega)
      have h2 : 2 * (i + 1) = 2 * i + 1 + 1 := by omega
      have h3 : 2 * (i + 1) + 1 = 2 * i + 1 + 1 + 1 := by omega
      simp only [toInt16List, List.getD_cons_succ, h2, h3]
      exact ih

/-- `getD` commutes with the sample-scaling map (the default 0 is a fixed
point of the scaling). -/
theorem mapDiv_getD :
    ∀ (l : List Int) (i : Nat),
      (l.map (fun v : ℤ => (v : ℚ) / 32768)).getD i 0 = ((l.getD i 0 : ℤ) : ℚ) / 32768
  | [], i => by simp
  | v :: t, 0 => by simp
  | v :: t, i + 1 => by
      simp only [List.map_cons, List.getD_cons_succ]
      exact mapDiv_getD t i

/-- C10 (amended): for every base64 input decoding to a positive even
number of bytes, `decodeAudioData` produces a mono buffer at 24000 Hz
whose frame count is the number of decoded bytes divided by two, whose
`i`-th sample is the little-endian signed 16-bit value of bytes `2i`,
`2i+1` divided by 32768, and all of whose samples lie in `[-1, 1)`. -/
theorem decodeAudioData_even :
    ∀ (s : String) (bytes : List Nat),
      b64Decode s = some bytes → bytes.length % 2 = 0 → bytes ≠ [] →
      decodeAudioData s = Except.ok
        { numberOfChannels := 1, sampleRate := 24000, length := bytes.length / 2,
          channelData := (toInt16List bytes).map (fun v : ℤ => (v : ℚ) / 32768) } ∧
      (∀ i, 2 * i + 1 < bytes.length →
        ((toInt16List bytes).map (fun v : ℤ => (v : ℚ) / 32768)).getD i 0 =
          ((toSigned16 (bytes.getD (2 * i) 0 + 256 * bytes.getD (2 * i + 1) 0) : ℤ) : ℚ) / 32768) ∧
      (∀ q ∈ (toInt16List bytes).map (fun v : ℤ => (v : ℚ) / 32768), -1 ≤ q ∧ q < 1) := by
  intro s bytes hdec heven hne
  refine ⟨?_, ?_, ?_⟩
  · have hlen : 0 < bytes.length := List.length_pos.mpr hne
    have hhalf : ¬ ((toInt16List bytes).length = 0) := by
      rw [toInt16List_length]
      omega
    simp [decodeAudioData, hdec, heven, hhalf, toInt16List_length]
    omega
  · intro i hi
    rw [mapDiv_getD, toInt16List_getD bytes i hi]
  · intro q hq
    obtain ⟨v, hv, hvq⟩ := List.mem_map.mp hq
    subst hvq
    have hb : ∀ b ∈ bytes, b < 256 := b64DecodeChunks_lt s.toList bytes hdec
    have hbd := toInt16List_mem_bounds bytes hb v hv
    have h32 : (0 : ℚ) < 32768 := by norm_num
    constructor
    · rw [le_div_iff₀ h32]
      have hcast : ((-32768 : ℤ) : ℚ) ≤ (v : ℚ) := by exact_mod_cast hbd.1
      push_cast at hcast ⊢
      linarith
    · rw [div_lt_one h32]
      exact_mod_cast hbd.2

/-- C10 witness: the even-length input `AAA=` decodes to two zero bytes and
yields the one-frame silent buffer. -/
theorem decodeAudioData_even_witness :
    b64Decode "AAA=" = some [0, 0] ∧
    decodeAudioData "AAA=" = Except.ok
      { numberOfChannels := 1, sampleRate := 24000, length := 1, channelData := [0] } := by
  have h := (decodeAudioData_even "AAA=" [0, 0] (by decide) (by decide) (by decide)).1
  refine ⟨by decide, ?_⟩
  simpa [toInt16List, toSigned16] using h

/-- C1 witness: the single fixed request at a concrete prompt. -/
theorem generateAIAnswer_single_fixed_request_witness :
    (generateAIAnswer (fun _ => GenOutcome.success (some "ok")) "hello" none).2 =
      [generateAIAnswerRequest "hello" none] :=
  (generateAIAnswer_single_fixed_request (fun _ => GenOutcome.success (some "ok")) "hello" none).1
